import Mathlib

/-!
Verification of the process-management syscall layer of an rCore-style
kernel (`src/os/src/syscall/process.rs`) against its natural-language
specification.

The handlers in the source file are embedded as executable Lean
functions.  Collaborator code that the handlers call but that is not
part of the repository snapshot (the `mm` and `task` modules:
`translated_byte_buffer`, `VirtAddr::aligned`, `MapPermission`,
`task_check_map`, `task_mmap`, `task_unmap`, and the task-state
accessors) is modelled from the specification; each such definition
carries a doc comment starting with `Modelled from the spec:`.
Machine integers (`usize`) are modelled as `Nat`, with an explicit
`% 2 ^ 64` at the one place the source performs unchecked address
arithmetic.  Fallible operations (slice indexing, `copy_from_slice`,
user-pointer translation) return `Option`, `none` standing for a
panic or a translation fault, i.e. for the handler not terminating
normally.
-/

namespace RCoreSyscall

/-- Page size of the sv39 target, 4096 bytes. -/
def PAGE_SIZE : Nat := 4096

/-- Width of `usize`: 64 bits wide on the target; one past the largest value. -/
def USIZE_BOUND : Nat := 2 ^ 64

/-- Modelled from the spec: size of the fixed per-syscall-number counter
table of `TaskInfo` (source constant `config::MAX_SYSCALL_NUM`, not in
the snapshot; the exact value is irrelevant to every claim). -/
def MAX_SYSCALL_NUM : Nat := 500

/-- Bitwise NOT of `x` inside a 64-bit word, so that `usize_not 0x7`
is the mask `!0x7` the source tests `port` against. -/
def usize_not (x : Nat) : Nat := 2 ^ 64 - 1 - x

/-! ## Byte-level values

`repr(C)` structs of `usize` fields are laid out little-endian on
RISC-V; a byte is a `Nat` below 256. -/

/-- Little-endian byte encoding of `v` in `n` bytes. -/
def natToLeBytes : Nat → Nat → List Nat
  | 0, _ => []
  | n + 1, v => v % 256 :: natToLeBytes n (v / 256)

/-- The `TimeVal` struct of the source: seconds and microseconds, two
`usize` fields, `repr(C)`. -/
structure TimeVal where
  sec : Nat
  usec : Nat
deriving DecidableEq, Repr

/-- The 16 bytes of a `TimeVal` as the kernel sees them
(`*const [u8; size_of::<TimeVal>()]` in the source). -/
def timeValBytes (tv : TimeVal) : List Nat :=
  natToLeBytes 8 tv.sec ++ natToLeBytes 8 tv.usec

/-- Modelled from the spec: enumerated lifecycle label for a task
(source enum `task::TaskStatus`, not in the snapshot). -/
inductive TaskStatus where
  | UnInit
  | Ready
  | Running
  | Exited
deriving DecidableEq, Repr

/-- The `TaskInfo` struct of the source: lifecycle status, the
per-syscall-number invocation counters, and the `time` field whose
own doc comment reads "Total running time of task". -/
structure TaskInfo where
  status : TaskStatus
  syscall_times : List Nat
  time : Nat
deriving DecidableEq, Repr

/-- Modelled from the spec: the state of the calling task visible to
the handlers through the `task`/`timer` accessors, which are not in
the snapshot.  `now_ms` is the global system clock in milliseconds
("samples the system clock"); `running_ms` is the spec notion of the
task's cumulative running time in milliseconds, a quantity no
accessor imported by the source exposes. -/
structure TaskEnv where
  status : TaskStatus
  syscall_times : List Nat
  now_ms : Nat
  running_ms : Nat
deriving DecidableEq, Repr

/-- Modelled from the spec: status query of the injected execution
context (`task::get_task_status`). -/
def get_task_status (env : TaskEnv) : TaskStatus := env.status

/-- Modelled from the spec: syscall-count query of the injected
execution context (`task::get_task_syscall_times`). -/
def get_task_syscall_times (env : TaskEnv) : List Nat := env.syscall_times

/-- Modelled from the spec: the system clock in milliseconds
(`timer::get_time_ms`, the same clock family `sys_get_time` samples). -/
def get_time_ms (env : TaskEnv) : Nat := env.now_ms

/-- The kernel-side `TaskInfo` value `sys_task_info` constructs
(source lines 80-85): status and counters from the task accessors, and
`time` from the global clock `get_time_ms()`. -/
def kernelTaskInfo (env : TaskEnv) : TaskInfo :=
  { status := get_task_status env
    syscall_times := get_task_syscall_times env
    time := get_time_ms env }

/-- A status byte for serialising `TaskStatus`. -/
def statusCode : TaskStatus → Nat
  | .UnInit => 0
  | .Ready => 1
  | .Running => 2
  | .Exited => 3

/-- The bytes of a kernel `TaskInfo` value (the source reads the struct
as `*const [u8; size_of::<TaskInfo>()]`; the exact compiler-chosen
layout is irrelevant to every claim, so the model fixes one: a status
byte, then 4-byte little-endian counters, then the 8-byte time). -/
def taskInfoBytes (ti : TaskInfo) : List Nat :=
  statusCode ti.status :: (ti.syscall_times.map (natToLeBytes 4)).flatten
    ++ natToLeBytes 8 ti.time

/-! ## Address spaces and the Cross-Page Copy Engine -/

/-- Modelled from the spec: `MapPermission`, a set over the flags
{Read, Write, Execute, User}. -/
structure MapPermission where
  r : Bool
  w : Bool
  x : Bool
  u : Bool
deriving DecidableEq, Repr

/-- Modelled from the spec: the per-process mapped-page set — each
mapped virtual page number with its permission bits. -/
abbrev AddrSpace : Type := List (Nat × MapPermission)

/-- Whether page number `p` is mapped in `asp`. -/
def pageMapped (asp : AddrSpace) (p : Nat) : Bool :=
  asp.any (fun ent => ent.1 == p)

/-- The virtual page numbers covered by `[s, e)`: floor for the start,
ceiling for the exclusive end (spec §3). -/
def pageRange (s e : Nat) : List Nat :=
  List.range' (s / PAGE_SIZE) ((e + PAGE_SIZE - 1) / PAGE_SIZE - s / PAGE_SIZE)

/-- Alignment predicate `VirtAddr::aligned`, modelled from the spec:
`addr mod PAGE_SIZE == 0`. -/
def aligned (a : Nat) : Bool := a % PAGE_SIZE == 0

/-- Window lengths of the byte range `[addr, addr + len)` split at page
boundaries, in address order; `fuel` bounds the recursion and `len`
suffices since every window is nonempty. -/
def windowLengthsAux : Nat → Nat → Nat → List Nat
  | 0, _, _ => []
  | fuel + 1, addr, len =>
    if len = 0 then []
    else
      min len (PAGE_SIZE - addr % PAGE_SIZE)
        :: windowLengthsAux fuel (addr + min len (PAGE_SIZE - addr % PAGE_SIZE))
          (len - min len (PAGE_SIZE - addr % PAGE_SIZE))

/-- Lengths of the contiguous windows backing `[addr, addr + len)`. -/
def windowLengths (addr len : Nat) : List Nat :=
  windowLengthsAux len addr len

/-- Modelled from the spec: the Cross-Page Copy Engine
(`mm::translated_byte_buffer`).  For a user range whose pages are all
mapped it yields the lengths of the byte-buffer windows, one per
physical page, in address order, collectively covering exactly
`[addr, addr + len)`; if any page of the range is unmapped,
translation fails (`InvalidUserPointer`), modelled as `none`.
(Permission checking is abstracted to page membership; no claim
depends on it.) -/
def translated_byte_buffer (asp : AddrSpace) (addr len : Nat) :
    Option (List Nat) :=
  if (pageRange addr (addr + len)).all (fun p => pageMapped asp p) then
    some (windowLengths addr len)
  else
    none

/-- Rust slice indexing `&k[a..b]`: defined when `a ≤ b ∧ b ≤ k.len()`,
a panic (`none`) otherwise. -/
def sliceRange (k : List Nat) (a b : Nat) : Option (List Nat) :=
  if a ≤ b ∧ b ≤ k.length then some ((k.drop a).take (b - a)) else none

/-- Rust `copy_from_slice` into a window of length `dstLen`: panics
(`none`) unless the source has exactly the destination's length;
otherwise the window now holds the source bytes. -/
def copyFromSlice (dstLen : Nat) (src : List Nat) : Option (List Nat) :=
  if src.length = dstLen then some src else none

/-- The copy loop shared verbatim by `sys_get_time` (source lines
63-70) and `sys_task_info` (lines 90-97): for each window of length
`len` it executes `buffer.copy_from_slice(&k[begin..len])` — with the
source's literal slice bounds `begin..len` — then advances `begin` by
`len`.  Returns the written windows in order, or `none` when a slice
operation panics. -/
def copyLoop (k : List Nat) : Nat → List Nat → Option (List (List Nat))
  | _, [] => some []
  | b, len :: rest =>
    match sliceRange k b len with
    | none => none
    | some src =>
      match copyFromSlice len src with
      | none => none
      | some w =>
        match copyLoop k (b + len) rest with
        | none => none
        | some ws => some (w :: ws)

/-- Handler `sys_get_time` (source lines 50-72): sample the clock, form the
kernel `TimeVal`, translate the user buffer, run the copy loop, return
0.  The result is the returned code together with the bytes now in the
user range (windows concatenated in address order); `none` when
translation faults or the copy loop panics. -/
def sys_get_time (asp : AddrSpace) (ts : Nat) (now_us : Nat) :
    Option (Int × List Nat) :=
  let k_ts := timeValBytes { sec := now_us / 1000000, usec := now_us % 1000000 }
  match translated_byte_buffer asp ts k_ts.length with
  | none => none
  | some u_ts =>
    match copyLoop k_ts 0 u_ts with
    | none => none
    | some out => some (0, out.flatten)

/-- Handler `sys_task_info` (source lines 77-99): form the kernel `TaskInfo`
from the task accessors and the clock, translate the user buffer, run
the same copy loop, return 0. -/
def sys_task_info (asp : AddrSpace) (ti : Nat) (env : TaskEnv) :
    Option (Int × List Nat) :=
  let k_ti := taskInfoBytes (kernelTaskInfo env)
  match translated_byte_buffer asp ti k_ti.length with
  | none => none
  | some u_ti =>
    match copyLoop k_ti 0 u_ti with
    | none => none
    | some out => some (0, out.flatten)

/-! ## Mapping Validator, Mapping Mutator, and the mmap/munmap handlers -/

/-- Modelled from the spec: the Mapping Validator
(`task::task_check_map`).  Over the whole pages covered by
`[vstart, vend)`: in destroy mode (`for_unmap = true`) every page must
currently be mapped; in create mode every page must currently be
unmapped.  Any single page failing the condition fails the whole
check. -/
def task_check_map (asp : AddrSpace) (vstart vend : Nat) (for_unmap : Bool) :
    Bool :=
  if for_unmap then
    (pageRange vstart vend).all (fun p => pageMapped asp p)
  else
    (pageRange vstart vend).all (fun p => !pageMapped asp p)

/-- Modelled from the spec: the Mapping Mutator's map half
(`task::task_mmap`): marks each page of `[vstart, vend)` present with
the given permission. -/
def task_mmap (asp : AddrSpace) (vstart vend : Nat)
    (perm : MapPermission) : AddrSpace :=
  asp ++ (pageRange vstart vend).map (fun p => (p, perm))

/-- Modelled from the spec: the Mapping Mutator's unmap half
(`task::task_unmap`): removes each page of `[vstart, vend)` from the
mapped-page set. -/
def task_unmap (asp : AddrSpace) (vstart vend : Nat) : AddrSpace :=
  asp.filter (fun ent => !(pageRange vstart vend).contains ent.1)

/-- The exclusive end address `VirtAddr(start + len)` computed at the
top of `sys_mmap` and `sys_munmap`: an unchecked `usize` addition,
which wraps around the 64-bit word in a release build. -/
def mmapEnd (start len : Nat) : Nat := (start + len) % USIZE_BOUND

/-- The permission set `sys_mmap` builds (source lines 111-123):
`MapPermission::U`, then `R`/`W`/`X` or-ed in when bits 0/1/2 of
`port` are set. -/
def mmapPermission (port : Nat) : MapPermission :=
  let p0 : MapPermission := { r := false, w := false, x := false, u := true }
  let p1 := if port &&& 0x1 ≠ 0 then { p0 with r := true } else p0
  let p2 := if port &&& 0x2 ≠ 0 then { p1 with w := true } else p1
  if port &&& 0x4 ≠ 0 then { p2 with x := true } else p2

/-- Handler `sys_mmap` (source lines 102-130): compute the end address, reject
a misaligned start, reject a `port` with bits above the low three or
with none of the low three, decode the permission, reject a range with
an already-mapped page, then map.  Returns the code and the resulting
mapped-page set. -/
def sys_mmap (asp : AddrSpace) (start len port : Nat) : Int × AddrSpace :=
  let v_start := start
  let v_end := mmapEnd start len
  if !aligned v_start then (-1, asp)
  else if port &&& usize_not 0x7 ≠ 0 ∨ port &&& 0x7 = 0 then (-1, asp)
  else
    let map_permission := mmapPermission port
    if !task_check_map asp v_start v_end false then (-1, asp)
    else (0, task_mmap asp v_start v_end map_permission)

/-- Handler `sys_munmap` (source lines 133-148): compute the end address,
reject a misaligned start, reject a range with an unmapped page, then
unmap. -/
def sys_munmap (asp : AddrSpace) (start len : Nat) : Int × AddrSpace :=
  let v_start := start
  let v_end := mmapEnd start len
  if !aligned v_start then (-1, asp)
  else if !task_check_map asp v_start v_end true then (-1, asp)
  else (0, task_unmap asp v_start v_end)

/-! ## Concrete values used by witnesses and counterexamples -/

/-- A Read-Write-User permission, the decoding of port `0x3`. -/
def permRW : MapPermission := { r := true, w := true, x := false, u := true }

/-- A concrete task environment: a task that was first scheduled
100 ms after boot and has accumulated 150 ms of running time by the
time of the call, at which point the global clock reads 250 ms. -/
def exEnv : TaskEnv :=
  { status := .Running
    syscall_times := List.replicate MAX_SYSCALL_NUM 0
    now_ms := 250
    running_ms := 150 }

/-! ## Helper lemmas -/

theorem natToLeBytes_length (n : Nat) : ∀ v, (natToLeBytes n v).length = n := by
  induction n with
  | zero => intro v; rfl
  | succ m ih => intro v; simp [natToLeBytes, ih]

theorem timeValBytes_length (tv : TimeVal) : (timeValBytes tv).length = 16 := by
  simp [timeValBytes, natToLeBytes_length]

theorem taskInfoBytes_length (ti : TaskInfo) :
    (taskInfoBytes ti).length = 9 + 4 * ti.syscall_times.length := by
  have h : ∀ l : List Nat, ((l.map (natToLeBytes 4)).flatten).length = 4 * l.length := by
    intro l
    induction l with
    | nil => simp
    | cons a t ih => simp [ih, natToLeBytes_length]; ring
  simp [taskInfoBytes, h, natToLeBytes_length]
  ring

theorem windowLengthsAux_len_zero (f a : Nat) : windowLengthsAux f a 0 = [] := by
  cases f <;> rfl

theorem windowLengths_single (addr len : Nat) (h0 : 0 < len)
    (h : len ≤ PAGE_SIZE - addr % PAGE_SIZE) : windowLengths addr len = [len] := by
  unfold windowLengths
  obtain ⟨f, rfl⟩ : ∃ f, len = f + 1 := ⟨len - 1, by omega⟩
  rw [windowLengthsAux]
  rw [if_neg (by omega), Nat.min_eq_left h]
  simp [windowLengthsAux_len_zero]

theorem copyLoop_single (k : List Nat) (l : Nat) (h : k.length = l) :
    copyLoop k 0 [l] = some [k] := by
  subst h
  unfold copyLoop sliceRange copyFromSlice
  rw [if_pos ⟨Nat.zero_le _, Nat.le_refl _⟩]
  simp only [List.drop_zero, Nat.sub_zero, List.take_length, if_pos rfl]
  rfl

theorem copyLoop_pos_begin (k : List Nat) (b l : Nat) (rest : List Nat)
    (hb : b ≠ 0) : copyLoop k b (l :: rest) = none := by
  unfold copyLoop sliceRange copyFromSlice
  by_cases hsl : b ≤ l ∧ l ≤ k.length
  · rw [if_pos hsl]
    have hlen : ((k.drop b).take (l - b)).length = l - b := by
      simp
      omega
    simp only [hlen]
    rw [if_neg (by omega)]
  · rw [if_neg hsl]

theorem copyLoop_multi (k : List Nat) (l1 l2 : Nat) (ls : List Nat)
    (h1 : l1 ≠ 0) : copyLoop k 0 (l1 :: l2 :: ls) = none := by
  unfold copyLoop
  rw [copyLoop_pos_begin k (0 + l1) l2 ls (by omega)]
  split
  · rfl
  · split
    · rfl
    · rfl

theorem sys_get_time_eq (asp : AddrSpace) (ts now_us : Nat) :
    sys_get_time asp ts now_us =
      match translated_byte_buffer asp ts
          (timeValBytes { sec := now_us / 1000000, usec := now_us % 1000000 }).length with
      | none => none
      | some u_ts =>
        match copyLoop (timeValBytes { sec := now_us / 1000000, usec := now_us % 1000000 })
            0 u_ts with
        | none => none
        | some out => some (0, out.flatten) := rfl

theorem sys_task_info_eq (asp : AddrSpace) (ti : Nat) (env : TaskEnv) :
    sys_task_info asp ti env =
      match translated_byte_buffer asp ti (taskInfoBytes (kernelTaskInfo env)).length with
      | none => none
      | some u_ti =>
        match copyLoop (taskInfoBytes (kernelTaskInfo env)) 0 u_ti with
        | none => none
        | some out => some (0, out.flatten) := rfl

theorem sys_mmap_eq (asp : AddrSpace) (start len port : Nat) :
    sys_mmap asp start len port =
      if (!aligned start) = true then (-1, asp)
      else if port &&& usize_not 0x7 ≠ 0 ∨ port &&& 0x7 = 0 then (-1, asp)
      else if (!task_check_map asp start (mmapEnd start len) false) = true then (-1, asp)
      else (0, task_mmap asp start (mmapEnd start len) (mmapPermission port)) := rfl

theorem sys_munmap_eq (asp : AddrSpace) (start len : Nat) :
    sys_munmap asp start len =
      if (!aligned start) = true then (-1, asp)
      else if (!task_check_map asp start (mmapEnd start len) true) = true then (-1, asp)
      else (0, task_unmap asp start (mmapEnd start len)) := rfl

theorem sys_task_info_none_of_multi_window (asp : AddrSpace) (ti : Nat)
    (env : TaskEnv) (l1 l2 : Nat) (ls : List Nat)
    (htr : translated_byte_buffer asp ti
      (taskInfoBytes (kernelTaskInfo env)).length = some (l1 :: l2 :: ls))
    (h1 : l1 ≠ 0) : sys_task_info asp ti env = none := by
  rw [sys_task_info_eq, htr]
  show (match copyLoop (taskInfoBytes (kernelTaskInfo env)) 0 (l1 :: l2 :: ls) with
    | none => none
    | some out => some ((0 : Int), out.flatten)) = none
  rw [copyLoop_multi _ l1 l2 ls h1]

theorem start_page_mem_pageRange (s e : Nat) (ha : s % PAGE_SIZE = 0)
    (hlt : s < e) : s / PAGE_SIZE ∈ pageRange s e := by
  unfold pageRange
  rw [List.mem_range'_1]
  unfold PAGE_SIZE at *
  omega

theorem pageMapped_task_mmap_of_mem (asp : AddrSpace) (s e : Nat)
    (perm : MapPermission) (p : Nat) (hp : p ∈ pageRange s e) :
    pageMapped (task_mmap asp s e perm) p = true := by
  simp [pageMapped, task_mmap, List.any_eq_true]
  right
  exact hp

theorem pageMapped_task_unmap_of_mem (asp : AddrSpace) (s e : Nat)
    (p : Nat) (hp : p ∈ pageRange s e) :
    pageMapped (task_unmap asp s e) p = false := by
  rw [Bool.eq_false_iff]
  intro hcon
  rw [pageMapped, List.any_eq_true] at hcon
  obtain ⟨ent, hmem, hbeq⟩ := hcon
  unfold task_unmap at hmem
  rw [List.mem_filter] at hmem
  have h1 : ent.1 = p := by simpa using hbeq
  have h2 : ¬ p ∈ pageRange s e := by
    have h3 := hmem.2
    simp [h1] at h3
    exact h3
  exact h2 hp

/-! ## Claim theorems -/

/-- Claim C1 (code bug).  The claim says the bytes copied into the
user-buffer windows, tracked with a running offset, always equal the
kernel value's bytes over the full destination range, so that a
two-page destination is byte-identical to a one-page one.  The copy
loop slices `k[begin..len]` instead of `k[begin..begin+len]`, so a
single-window destination is copied correctly (first conjunct) while a
destination spanning two pages makes `copy_from_slice` panic on a
length mismatch in both `sys_get_time` and `sys_task_info` (second and
third conjuncts: the handler does not terminate normally, and the
second window never receives the kernel bytes). -/
theorem c1_cross_page_copy_is_broken :
    sys_get_time [(0, permRW)] 0 123456789 =
        some (0, timeValBytes { sec := 123, usec := 456789 })
    ∧ sys_get_time [(0, permRW), (1, permRW)] 4088 123456789 = none
    ∧ sys_task_info [(0, permRW), (1, permRW)] 4088 exEnv = none := by
  refine ⟨by decide, by decide, ?_⟩
  have h0 : (kernelTaskInfo exEnv).syscall_times = List.replicate MAX_SYSCALL_NUM 0 := rfl
  have hlen : (taskInfoBytes (kernelTaskInfo exEnv)).length = 2009 := by
    rw [taskInfoBytes_length, h0, List.length_replicate]
    decide
  have htr : translated_byte_buffer [(0, permRW), (1, permRW)] 4088 2009 =
      some [8, 2001] := by decide
  exact sys_task_info_none_of_multi_window _ _ _ 8 2001 []
    (by rw [hlen]; exact htr) (by decide)

/-- Claim C2 (corrected).  The claim says `sys_get_time` always
returns 0 for every destination pointer and address-space state; in
fact the handler only terminates normally when the translation and the
windowed copy succeed.  This theorem is the amended claim: whenever
the 16-byte destination is fully mapped and lies within a single page
window, the handler terminates with 0 and the destination holds
exactly the kernel `TimeVal` bytes. -/
theorem c2_get_time_zero_when_copy_succeeds (asp : AddrSpace) (ts now_us : Nat)
    (hmap : ∀ p ∈ pageRange ts (ts + 16), pageMapped asp p = true)
    (hfit : ts % PAGE_SIZE + 16 ≤ PAGE_SIZE) :
    sys_get_time asp ts now_us =
      some (0, timeValBytes { sec := now_us / 1000000, usec := now_us % 1000000 }) := by
  have hlen : (timeValBytes { sec := now_us / 1000000, usec := now_us % 1000000 }).length = 16 :=
    timeValBytes_length _
  have htr : translated_byte_buffer asp ts 16 = some [16] := by
    unfold translated_byte_buffer
    rw [if_pos (List.all_eq_true.mpr hmap)]
    rw [windowLengths_single ts 16 (by omega) (by omega)]
  rw [sys_get_time_eq, hlen, htr]
  show (match copyLoop
      (timeValBytes { sec := now_us / 1000000, usec := now_us % 1000000 }) 0 [16] with
    | none => none
    | some out => some ((0 : Int), out.flatten)) =
    some (0, timeValBytes { sec := now_us / 1000000, usec := now_us % 1000000 })
  rw [copyLoop_single _ 16 hlen]
  simp

/-- Witness for C2's amended theorem at a concrete input: page 0
mapped, destination 0, clock at 987654 microseconds. -/
theorem c2_amended_witness : sys_get_time [(0, permRW)] 0 987654 =
    some (0, timeValBytes { sec := 987654 / 1000000, usec := 987654 % 1000000 }) :=
  c2_get_time_zero_when_copy_succeeds [(0, permRW)] 0 987654 (by decide) (by decide)

/-- Counterexample to C2 as stated: with an empty address space (the
destination page unmapped) the translation faults and the handler does
not terminate normally with 0. -/
theorem c2_not_always_zero : sys_get_time [] 0 0 = none := by decide

/-- Claim C3 (code bug).  The claim says the `time` field of the
`TaskInfo` snapshot is the calling task's cumulative running time in
milliseconds; the code stores `timer::get_time_ms()`, the global
system clock.  At a task environment whose clock reads 250 ms while
the task has only run 150 ms, the status and counter fields are the
task's own, but the `time` field is the wall clock, not the running
time. -/
theorem c3_time_field_is_wall_clock :
    (kernelTaskInfo exEnv).status = exEnv.status
    ∧ (kernelTaskInfo exEnv).syscall_times = exEnv.syscall_times
    ∧ (kernelTaskInfo exEnv).time = exEnv.now_ms
    ∧ exEnv.now_ms = 250
    ∧ exEnv.running_ms = 150
    ∧ (kernelTaskInfo exEnv).time ≠ exEnv.running_ms :=
  ⟨rfl, rfl, rfl, rfl, rfl, by decide⟩

/-- Claim C4 (corrected).  For a page-aligned, previously-unmapped
range covering at least one page (`0 < len`) whose end address does
not overflow the machine word, and a valid port, the first `sys_mmap`
returns 0 and an immediately repeated `sys_mmap` over the same range
returns -1. -/
theorem c4_double_mmap_rejected (asp : AddrSpace) (start len port : Nat)
    (hlen : 0 < len) (hov : start + len < USIZE_BOUND)
    (ha : start % PAGE_SIZE = 0)
    (hport : ¬(port &&& usize_not 0x7 ≠ 0 ∨ port &&& 0x7 = 0))
    (hfree : ∀ p ∈ pageRange start (start + len), pageMapped asp p = false) :
    (sys_mmap asp start len port).1 = 0
    ∧ (sys_mmap (sys_mmap asp start len port).2 start len port).1 = -1 := by
  have hend : mmapEnd start len = start + len := by
    unfold mmapEnd
    exact Nat.mod_eq_of_lt hov
  have hal : aligned start = true := by simp [aligned, ha]
  have hchk1 : task_check_map asp start (mmapEnd start len) false = true := by
    rw [hend]
    unfold task_check_map
    simp only [if_neg (by simp : ¬ (false = true))]
    rw [List.all_eq_true]
    intro p hpmem
    simp [hfree p hpmem]
  have h1 : sys_mmap asp start len port =
      (0, task_mmap asp start (mmapEnd start len) (mmapPermission port)) := by
    rw [sys_mmap_eq, hal]
    simp only [Bool.not_true]
    rw [if_neg (by simp), if_neg hport, hchk1]
    simp
  refine ⟨by rw [h1], ?_⟩
  rw [h1]
  show (sys_mmap (task_mmap asp start (mmapEnd start len) (mmapPermission port))
    start len port).1 = -1
  have hp0 : start / PAGE_SIZE ∈ pageRange start (start + len) :=
    start_page_mem_pageRange start (start + len) ha (by omega)
  have hmapd : pageMapped
      (task_mmap asp start (mmapEnd start len) (mmapPermission port))
      (start / PAGE_SIZE) = true := by
    apply pageMapped_task_mmap_of_mem
    rw [hend]
    exact hp0
  have hchk2 : task_check_map
      (task_mmap asp start (mmapEnd start len) (mmapPermission port))
      start (mmapEnd start len) false = false := by
    rw [Bool.eq_false_iff]
    intro hall
    unfold task_check_map at hall
    rw [if_neg (by simp : ¬ (false = true)), List.all_eq_true] at hall
    have hcontr := hall (start / PAGE_SIZE) (by rw [hend]; exact hp0)
    rw [hmapd] at hcontr
    simp at hcontr
  rw [sys_mmap_eq, hal]
  simp only [Bool.not_true]
  rw [if_neg (by simp), if_neg hport, hchk2]
  simp

/-- Witness for C4's amended theorem: mapping two fresh pages at
0x1000 with port 0x7 succeeds, and mapping them again fails. -/
theorem c4_amended_witness :
    (sys_mmap [] 4096 8192 7).1 = 0
    ∧ (sys_mmap (sys_mmap [] 4096 8192 7).2 4096 8192 7).1 = -1 :=
  c4_double_mmap_rejected [] 4096 8192 7 (by decide) (by decide) (by decide)
    (by decide) (by decide)

/-- Counterexample to C4 as stated: a zero-length page-aligned range
is previously unmapped and the port is valid, yet both the first and
the second `sys_mmap` return 0 (the validator checks zero pages); and
a range whose end address wraps the 64-bit word behaves the same
way. -/
theorem c4_second_mmap_can_succeed :
    (sys_mmap [] 4096 0 1).1 = 0
    ∧ (sys_mmap (sys_mmap [] 4096 0 1).2 4096 0 1).1 = 0
    ∧ (sys_mmap [] (2 ^ 64 - 4096) 8192 1).1 = 0
    ∧ (sys_mmap (sys_mmap [] (2 ^ 64 - 4096) 8192 1).2 (2 ^ 64 - 4096) 8192 1).1 = 0 := by
  refine ⟨by decide, by decide, by decide, by decide⟩

/-- Claim C5 (corrected).  For a page-aligned mapped range covering at
least one page (`0 < len`) whose end address does not overflow the
machine word, the first `sys_munmap` returns 0 and an immediately
repeated `sys_munmap` over the same range returns -1. -/
theorem c5_munmap_succeeds_exactly_once (asp : AddrSpace) (start len : Nat)
    (hlen : 0 < len) (hov : start + len < USIZE_BOUND)
    (ha : start % PAGE_SIZE = 0)
    (hmapped : ∀ p ∈ pageRange start (start + len), pageMapped asp p = true) :
    (sys_munmap asp start len).1 = 0
    ∧ (sys_munmap (sys_munmap asp start len).2 start len).1 = -1 := by
  have hend : mmapEnd start len = start + len := by
    unfold mmapEnd
    exact Nat.mod_eq_of_lt hov
  have hal : aligned start = true := by simp [aligned, ha]
  have hchk1 : task_check_map asp start (mmapEnd start len) true = true := by
    rw [hend]
    unfold task_check_map
    rw [if_pos rfl, List.all_eq_true]
    exact hmapped
  have h1 : sys_munmap asp start len = (0, task_unmap asp start (mmapEnd start len)) := by
    rw [sys_munmap_eq, hal]
    simp only [Bool.not_true]
    rw [if_neg (by simp), hchk1]
    simp
  refine ⟨by rw [h1], ?_⟩
  rw [h1]
  show (sys_munmap (task_unmap asp start (mmapEnd start len)) start len).1 = -1
  have hp0 : start / PAGE_SIZE ∈ pageRange start (start + len) :=
    start_page_mem_pageRange start (start + len) ha (by omega)
  have hunm : pageMapped (task_unmap asp start (mmapEnd start len))
      (start / PAGE_SIZE) = false := by
    apply pageMapped_task_unmap_of_mem
    rw [hend]
    exact hp0
  have hchk2 : task_check_map (task_unmap asp start (mmapEnd start len))
      start (mmapEnd start len) true = false := by
    rw [Bool.eq_false_iff]
    intro hall
    unfold task_check_map at hall
    rw [if_pos rfl, List.all_eq_true] at hall
    have hcontr := hall (start / PAGE_SIZE) (by rw [hend]; exact hp0)
    rw [hunm] at hcontr
    simp at hcontr
  rw [sys_munmap_eq, hal]
  simp only [Bool.not_true]
  rw [if_neg (by simp), hchk2]
  simp

/-- Witness for C5's amended theorem, instantiated so that it is
exactly the claim's scenario: `mmap(0x1000, 0x2000, 0x3)` returns 0,
the first `munmap(0x1000, 0x2000)` returns 0 and the second returns
-1. -/
theorem c5_amended_witness :
    (sys_mmap [] 0x1000 0x2000 0x3).1 = 0
    ∧ (sys_munmap (sys_mmap [] 0x1000 0x2000 0x3).2 0x1000 0x2000).1 = 0
    ∧ (sys_munmap (sys_munmap (sys_mmap [] 0x1000 0x2000 0x3).2 0x1000 0x2000).2
        0x1000 0x2000).1 = -1 :=
  ⟨by decide,
   (c5_munmap_succeeds_exactly_once (sys_mmap [] 0x1000 0x2000 0x3).2 0x1000 0x2000
     (by decide) (by decide) (by decide) (by decide)).1,
   (c5_munmap_succeeds_exactly_once (sys_mmap [] 0x1000 0x2000 0x3).2 0x1000 0x2000
     (by decide) (by decide) (by decide) (by decide)).2⟩

/-- Counterexample to C5 as stated: for a zero-length page-aligned
range (vacuously mapped) both the first and the second `sys_munmap`
return 0; likewise for a range at the top of the address space whose
pages are all mapped but whose end address wraps the 64-bit word. -/
theorem c5_second_munmap_can_succeed :
    (sys_munmap [] 4096 0).1 = 0
    ∧ (sys_munmap (sys_munmap [] 4096 0).2 4096 0).1 = 0
    ∧ (sys_munmap [(2 ^ 52 - 1, permRW), (2 ^ 52, permRW)] (2 ^ 64 - 4096) 8192).1 = 0
    ∧ (sys_munmap (sys_munmap [(2 ^ 52 - 1, permRW), (2 ^ 52, permRW)]
        (2 ^ 64 - 4096) 8192).2 (2 ^ 64 - 4096) 8192).1 = 0 := by
  refine ⟨by decide, by decide, by decide, by decide⟩

/-- Claim C6 (confirmed).  Whenever `sys_mmap` or `sys_munmap` returns
-1, the mapped-page set is exactly as it was before the call: every
failing branch returns before the Mapping Mutator runs. -/
theorem c6_failed_call_leaves_state_unchanged (asp : AddrSpace)
    (start len port : Nat) :
    ((sys_mmap asp start len port).1 = -1 → (sys_mmap asp start len port).2 = asp)
    ∧ ((sys_munmap asp start len).1 = -1 → (sys_munmap asp start len).2 = asp) := by
  constructor
  · intro h
    rw [sys_mmap_eq] at h ⊢
    split_ifs at h ⊢ <;> simp_all
  · intro h
    rw [sys_munmap_eq] at h ⊢
    split_ifs at h ⊢ <;> simp_all

/-- Witness for C6 at concrete failing calls: a misaligned `sys_mmap`
and a `sys_munmap` of unmapped pages both leave the empty address
space empty. -/
theorem c6_witness :
    (sys_mmap [] 1 4096 1).2 = [] ∧ (sys_munmap [] 4096 4096).2 = [] :=
  ⟨(c6_failed_call_leaves_state_unchanged [] 1 4096 1).1 (by decide),
   (c6_failed_call_leaves_state_unchanged [] 4096 4096 1).2 (by decide)⟩

/-- Claim C7 (confirmed).  `sys_mmap` returns -1 whenever `start` is
not page-aligned, for every address space, length and port. -/
theorem c7_misaligned_start_rejected (asp : AddrSpace) (start len port : Nat)
    (h : ¬ start % PAGE_SIZE = 0) : (sys_mmap asp start len port).1 = -1 := by
  have hal : aligned start = false := by
    simp [aligned]
    exact h
  simp [sys_mmap, hal]

/-- Witness for C7 at the spec's scenario `mmap(0x1001, 0x1000, 0x1)`. -/
theorem c7_witness : (sys_mmap [] 0x1001 0x1000 0x1).1 = -1 :=
  c7_misaligned_start_rejected [] 0x1001 0x1000 0x1 (by decide)

/-- Claim C8 (confirmed).  `sys_mmap` returns -1 whenever `port` has a
bit set above the low three (`port & !0x7 != 0`) or none of the low
three set (`port & 0x7 == 0`); the result is `(-1, asp)` for every
mapped-page set `asp`, so the rejection neither consults nor modifies
the mapping state. -/
theorem c8_invalid_port_rejected (asp : AddrSpace) (start len port : Nat)
    (h : port &&& usize_not 0x7 ≠ 0 ∨ port &&& 0x7 = 0) :
    sys_mmap asp start len port = (-1, asp) := by
  cases hb : aligned start <;> simp [sys_mmap, hb, h]

/-- Witness for C8 at the spec's scenario `mmap(0x2000, 0x1000, 0x0)`
on a nonempty address space: rejected without touching the state. -/
theorem c8_witness :
    sys_mmap [(5, permRW)] 0x2000 0x1000 0 = (-1, [(5, permRW)]) :=
  c8_invalid_port_rejected [(5, permRW)] 0x2000 0x1000 0 (Or.inr (by decide))

/-- Claim C9 (confirmed).  When `sys_mmap` proceeds past its argument
validation, the permission set it hands to the Mapping Mutator always
contains User, and contains Read, Write, Execute exactly when bits 0,
1, 2 of `port` are set; when the validator also accepts, `sys_mmap`
passes exactly this set to `task_mmap`. -/
theorem c9_permission_decoding (asp : AddrSpace) (start len port : Nat)
    (ha : aligned start = true)
    (hp : ¬(port &&& usize_not 0x7 ≠ 0 ∨ port &&& 0x7 = 0)) :
    (mmapPermission port).u = true
    ∧ ((mmapPermission port).r = true ↔ port &&& 0x1 ≠ 0)
    ∧ ((mmapPermission port).w = true ↔ port &&& 0x2 ≠ 0)
    ∧ ((mmapPermission port).x = true ↔ port &&& 0x4 ≠ 0)
    ∧ (task_check_map asp start (mmapEnd start len) false = true →
        sys_mmap asp start len port =
          (0, task_mmap asp start (mmapEnd start len) (mmapPermission port))) := by
  refine ⟨?_, ?_, ?_, ?_, ?_⟩
  · unfold mmapPermission
    split_ifs <;> rfl
  · unfold mmapPermission
    split_ifs <;> simp_all
  · unfold mmapPermission
    split_ifs <;> simp_all
  · unfold mmapPermission
    split_ifs <;> simp_all
  · intro hc
    rw [sys_mmap_eq, ha]
    simp only [Bool.not_true]
    rw [if_neg (by simp), if_neg hp, hc]
    simp

/-- Witness for C9 at port 0x5 (Read and Execute): User always, Read
set, Write clear, Execute set, and the success path hands exactly this
set to the Mutator. -/
theorem c9_witness :
    (mmapPermission 5).u = true
    ∧ ((mmapPermission 5).r = true ↔ (5 : Nat) &&& 0x1 ≠ 0)
    ∧ ((mmapPermission 5).w = true ↔ (5 : Nat) &&& 0x2 ≠ 0)
    ∧ ((mmapPermission 5).x = true ↔ (5 : Nat) &&& 0x4 ≠ 0)
    ∧ (task_check_map [] 4096 (mmapEnd 4096 4096) false = true →
        sys_mmap [] 4096 4096 5 =
          (0, task_mmap [] 4096 (mmapEnd 4096 4096) (mmapPermission 5))) :=
  c9_permission_decoding [] 4096 4096 5 (by decide) (by decide)

/-- Claim C10 (code bug).  The claim says `start + len` never
overflows the machine word; the handlers perform the addition
unchecked, so at `start = 2^64 - 4096`, `len = 8192` the computed end
address wraps to 0x1000 — the page-aligned two-page request at the top
of the address space is silently treated as an empty range: both
handlers return 0 and map or unmap nothing. -/
theorem c10_end_address_overflows :
    (2 ^ 64 - 4096) % PAGE_SIZE = 0
    ∧ mmapEnd (2 ^ 64 - 4096) 8192 = 4096
    ∧ mmapEnd (2 ^ 64 - 4096) 8192 ≠ 2 ^ 64 - 4096 + 8192
    ∧ sys_mmap [] (2 ^ 64 - 4096) 8192 3 = (0, [])
    ∧ sys_munmap [] (2 ^ 64 - 4096) 8192 = (0, []) := by
  refine ⟨by decide, by decide, by decide, by decide, by decide⟩

end RCoreSyscall
